import Mathlib

/-!
Verification of the quiz-authoring front end: the create-quiz form's
Zod validation schema (`questionSchema`, `createQuizSchema`), the
submit-payload mapping (`onSubmit`), the form-state mutation handlers
(`addOption`, `removeOption`, `handleTypeChange`, question removal),
and the four HTTP service helpers (`services/api.ts`).

The draft state is embedded as plain structures; optional form fields
become `Option`; JS array index lookups beyond the length (which give
`undefined`, falsy) become `getD`-style lookups with a default.
-/

set_option autoImplicit false

namespace QuizBuilder

/-- The three question kinds of the `questionTypes` enum. -/
inductive QType where
  | boolean
  | input
  | checkbox
  deriving DecidableEq

/-- One question of the authoring form's state (`CreateQuizForm['questions'][number]`).
`correctBoolean` holds `some true` for the radio value `'true'`,
`some false` for `'false'`, and `none` when no radio is selected. -/
structure QuestionDraft where
  text : String
  type : QType
  options : Option (List String) := none
  correctBoolean : Option Bool := none
  correctInput : Option String := none
  correctCheckbox : Option (List Bool) := none
  deriving DecidableEq

/-- The whole form state (`CreateQuizForm`). -/
structure QuizDraft where
  title : String
  questions : List QuestionDraft
  deriving DecidableEq

/-- Field paths at which the schema reports issues. -/
inductive FieldPath where
  | title
  | questions
  | qText (i : Nat)
  | qOption (i j : Nat)
  | qOptions (i : Nat)
  | qCorrectBoolean (i : Nat)
  | qCorrectInput (i : Nat)
  | qCorrectCheckbox (i : Nat)
  deriving DecidableEq

/-- One Zod issue: a field path plus the message the schema attaches. -/
structure Issue where
  path : FieldPath
  message : String
  deriving DecidableEq

/-- JavaScript's `String.prototype.trim`: drop leading and trailing
whitespace.  Defined directly on the character list so that the kernel
can evaluate it on concrete strings. -/
def trim (s : String) : String :=
  ⟨((s.data.dropWhile Char.isWhitespace).reverse.dropWhile Char.isWhitespace).reverse⟩

/-- Issues of `z.array(z.string().trim().min(1, 'Option cannot be empty'))`:
element `j` (counting from `n`) is flagged when its trimmed value is empty. -/
def optionIssues (i : Nat) : Nat → List String → List Issue
  | _, [] => []
  | j, o :: os =>
    (if (trim o).length < 1 then [⟨.qOption i j, "Option cannot be empty"⟩] else [])
      ++ optionIssues i (j + 1) os

/-- Base-object issues of `questionSchema` for question `i`: the
`text: z.string().min(1, ...)` check plus the per-option checks
(the `options` field is validated whenever it is present). -/
def baseIssues (i : Nat) (q : QuestionDraft) : List Issue :=
  (if q.text.length < 1 then [⟨.qText i, "Question text is required"⟩] else [])
    ++ (match q.options with
        | none => []
        | some os => optionIssues i 0 os)

/-- The boolean block of the `superRefine` callback: an issue when no
radio is selected (`!question.correctBoolean`). -/
def booleanRefineIssues (i : Nat) (q : QuestionDraft) : List Issue :=
  match q.correctBoolean with
  | none => [⟨.qCorrectBoolean i, "Select the correct answer"⟩]
  | some _ => []

/-- The input block of the `superRefine` callback: an issue when the
expected answer is missing or blank after trimming. -/
def inputRefineIssues (i : Nat) (q : QuestionDraft) : List Issue :=
  match q.correctInput with
  | none => [⟨.qCorrectInput i, "Provide the expected answer"⟩]
  | some s =>
    if (trim s).length = 0 then [⟨.qCorrectInput i, "Provide the expected answer"⟩]
    else []

/-- The first check of the checkbox block: an issue when the options
array is missing or empty. -/
def checkboxOptionsIssues (i : Nat) (q : QuestionDraft) : List Issue :=
  match q.options with
  | none => [⟨.qOptions i, "Add at least one option for checkbox questions"⟩]
  | some [] => [⟨.qOptions i, "Add at least one option for checkbox questions"⟩]
  | some (_ :: _) => []

/-- The second check of the checkbox block: an issue when the flags array
is missing, differs in length from the options (`?.length ?? 0`), or —
failing neither — holds no `true` flag. -/
def checkboxFlagsIssues (i : Nat) (q : QuestionDraft) : List Issue :=
  match q.correctCheckbox with
  | none => [⟨.qCorrectCheckbox i, "Mark which options are correct"⟩]
  | some fs =>
    if fs.length ≠ (q.options.getD []).length then
      [⟨.qCorrectCheckbox i, "Mark which options are correct"⟩]
    else if fs.any id = false then
      [⟨.qCorrectCheckbox i, "Select at least one correct option"⟩]
    else []

/-- Issues added by `questionSchema`'s `superRefine` callback for question `i`,
switching on the question type exactly as the source does. -/
def superRefineIssues (i : Nat) (q : QuestionDraft) : List Issue :=
  (if q.type = .boolean then booleanRefineIssues i q else [])
    ++ (if q.type = .input then inputRefineIssues i q else [])
    ++ (if q.type = .checkbox then
          checkboxOptionsIssues i q ++ checkboxFlagsIssues i q
        else [])

/-- All issues `questionSchema` reports for question `i`: its base-object
issues followed by its `superRefine` issues (Zod runs the refinement also
when the base parse is dirty; it skips it only on aborts, which cannot
occur here since every field of the embedded state is well-typed). -/
def questionSchemaIssues (i : Nat) (q : QuestionDraft) : List Issue :=
  baseIssues i q ++ superRefineIssues i q

/-- Issues of the `questions` array elements, question `n` first. -/
def questionsIssues : Nat → List QuestionDraft → List Issue
  | _, [] => []
  | n, q :: qs => questionSchemaIssues n q ++ questionsIssues (n + 1) qs

/-- All issues `createQuizSchema.safeParse` reports on a draft: the
`title` min-length check, the `questions` array min-length check, then
each question's issues in order. An empty result means validation passed. -/
def createQuizSchemaIssues (d : QuizDraft) : List Issue :=
  (if d.title.length < 1 then [⟨.title, "Title is required"⟩] else [])
    ++ (if d.questions.length < 1 then
          [⟨.questions, "Add at least one question to the quiz"⟩]
        else [])
    ++ questionsIssues 0 d.questions

/-- The error keys (field paths) of the validation error set. -/
def vpaths (d : QuizDraft) : List FieldPath :=
  (createQuizSchemaIssues d).map Issue.path

/-- The `correctAnswer` of a submitted question: a boolean, a string, or a
list of strings depending on the question type (the wire-shape union). -/
inductive CorrectAnswer where
  | ofBool (b : Bool)
  | ofString (s : String)
  | ofStrings (ss : List String)
  deriving DecidableEq

/-- One element of the `questionsPayload` array built by `onSubmit`
(`QuizQuestionPayload` in `services/api.ts`); `options` is absent for
input questions. -/
structure QuestionPayload where
  text : String
  type : QType
  options : Option (List String)
  correctAnswer : CorrectAnswer
  deriving DecidableEq

/-- The body `onSubmit` posts (`CreateQuizPayload` in `services/api.ts`). -/
structure CreateQuizPayload where
  title : String
  questions : List QuestionPayload
  deriving DecidableEq

/-- `options.filter((_, idx) => correctCheckbox[idx])`: keep the options
whose index-aligned flag is `true`; an out-of-range lookup is `undefined`,
hence falsy, hence dropped. -/
def filterAligned : List String → List Bool → List String
  | [], _ => []
  | _ :: _, [] => []
  | o :: os, f :: fs => if f then o :: filterAligned os fs else filterAligned os fs

/-- The per-question payload mapping inside `onSubmit`. -/
def questionPayload (q : QuestionDraft) : QuestionPayload :=
  match q.type with
  | .boolean =>
    { text := q.text
      type := q.type
      options := some ["True", "False"]
      correctAnswer := .ofBool (q.correctBoolean == some true) }
  | .input =>
    { text := q.text
      type := q.type
      options := none
      correctAnswer := .ofString ((q.correctInput.map trim).getD "") }
  | .checkbox =>
    let options := (q.options.getD []).map trim
    let correctCheckbox := q.correctCheckbox.getD []
    { text := q.text
      type := q.type
      options := some options
      correctAnswer := .ofStrings (filterAligned options correctCheckbox) }

/-- The full payload `onSubmit` hands to `createQuiz`.  The schema's only
output transform is trimming option strings, and the checkbox branch of
the mapping re-trims them, so applying the mapping to the raw draft gives
the same payload as applying it to the parsed form data. -/
def onSubmitPayload (d : QuizDraft) : CreateQuizPayload :=
  { title := d.title
    questions := d.questions.map questionPayload }

/-! ### Form-state mutation handlers -/

/-- `addOption(questionIndex)`: append `''` to the question's options and
`false` to its flags (both read through `?? []`). -/
def addOption (q : QuestionDraft) : QuestionDraft :=
  { q with
    options := some (q.options.getD [] ++ [""])
    correctCheckbox := some (q.correctCheckbox.getD [] ++ [false]) }

/-- `removeOption(questionIndex, optionIndex)`: drop the entry at
`optionIndex` from both arrays (`filter((_, idx) => idx !== optionIndex)`),
storing `undefined` instead of an empty array. -/
def removeOption (q : QuestionDraft) (optionIndex : Nat) : QuestionDraft :=
  let nextOptions := (q.options.getD []).eraseIdx optionIndex
  let nextCorrect := (q.correctCheckbox.getD []).eraseIdx optionIndex
  { q with
    options := if nextOptions.isEmpty then none else some nextOptions
    correctCheckbox := if nextCorrect.isEmpty then none else some nextCorrect }

/-- An option-list mutation: one `addOption` or `removeOption` call. -/
inductive OptionOp where
  | add
  | remove (optionIndex : Nat)

/-- Apply one option mutation to a question. -/
def applyOptionOp (q : QuestionDraft) : OptionOp → QuestionDraft
  | .add => addOption q
  | .remove j => removeOption q j

/-- The alignment invariant of §3: equally long `options` and
`correctCheckbox` arrays (absent fields read as `[]`, as the handlers do). -/
def aligned (q : QuestionDraft) : Prop :=
  (q.options.getD []).length = (q.correctCheckbox.getD []).length

instance (q : QuestionDraft) : Decidable (aligned q) := by
  unfold aligned; infer_instance

/-- `handleTypeChange(questionIndex, newType)` combined with the `select`
registration that stores the new type itself: re-initialize the
type-specific fields for the new type. -/
def handleTypeChange (q : QuestionDraft) (newType : QType) : QuestionDraft :=
  match newType with
  | .boolean =>
    { q with
      type := newType
      options := none
      correctCheckbox := none
      correctInput := none
      correctBoolean := some true }
  | .input =>
    { q with
      type := newType
      options := none
      correctCheckbox := none
      correctBoolean := none
      correctInput := some "" }
  | .checkbox =>
    let existingOptions := q.options.getD []
    let existingCorrect := q.correctCheckbox.getD []
    let options := if existingOptions.length > 0 then existingOptions else [""]
    let correctFlags := (List.range options.length).map fun idx =>
      existingCorrect.getD idx false
    { q with
      type := newType
      options := some options
      correctCheckbox := some correctFlags
      correctBoolean := none
      correctInput := none }

/-- The default question appended by `addQuestion` and used as the
initial form value. -/
def defaultQuestion : QuestionDraft :=
  { text := "", type := .input, correctInput := some "" }

/-- `addQuestion()`: append a fresh default question. -/
def addQuestion (d : QuizDraft) : QuizDraft :=
  { d with questions := d.questions ++ [defaultQuestion] }

/-- The Remove-question button: `remove(questionIndex)` guarded by
`disabled={fields.length === 1}` — a no-op when a single question
remains, otherwise removal of the question at the index. -/
def removeQuestion (d : QuizDraft) (questionIndex : Nat) : QuizDraft :=
  if d.questions.length = 1 then d
  else { d with questions := d.questions.eraseIdx questionIndex }

/-! ### The HTTP service helpers of `services/api.ts` -/

/-- A stored quiz as the detail page types it (`Quiz` in `[id].tsx`). -/
structure Question where
  id : Nat
  text : String
  type : QType
  options : Option (List String)
  correctAnswer : Option CorrectAnswer
  deriving DecidableEq

/-- A quiz returned by the backend. -/
structure Quiz where
  id : Nat
  title : String
  questions : List Question
  deriving DecidableEq

/-- An HTTP response as the helpers consume it: the `ok` flag plus the
already-parsed JSON body. -/
structure HttpResponse (α : Type) where
  ok : Bool
  body : α
  deriving DecidableEq

/-- `getQuizzes()`: throw `'Failed to fetch quizzes'` on a non-ok
response, otherwise return the parsed body. -/
def getQuizzes (res : HttpResponse (List Quiz)) : Except String (List Quiz) :=
  if res.ok = false then .error "Failed to fetch quizzes" else .ok res.body

/-- `getQuiz(id)`: throw `'Failed to fetch quiz'` on a non-ok response,
otherwise return the parsed body. -/
def getQuiz (id : Nat) (res : HttpResponse Quiz) : Except String Quiz :=
  if res.ok = false then .error "Failed to fetch quiz" else .ok res.body

/-- `createQuiz(data)`: throw `'Failed to create quiz'` on a non-ok
response, otherwise return the parsed body. -/
def createQuiz (data : CreateQuizPayload) (res : HttpResponse Quiz) :
    Except String Quiz :=
  if res.ok = false then .error "Failed to create quiz" else .ok res.body

/-- `deleteQuiz(id)`: throw `'Failed to delete quiz'` on a non-ok
response, otherwise return nothing. -/
def deleteQuiz (id : Nat) (res : HttpResponse Unit) : Except String Unit :=
  if res.ok = false then .error "Failed to delete quiz" else .ok ()

/-! ### Spec-side predicates (from the spec's words, for comparison) -/

/-- A string is a trimmed string: it is the trim of some string. -/
def IsTrimmed (s : String) : Prop :=
  ∃ t, s = trim t

/-- The §3 shape invariant of one submitted question, as C1 states it:
boolean questions carry `options = ["True","False"]` and a boolean
`correctAnswer`; input questions carry a trimmed-string `correctAnswer`;
checkbox questions carry trimmed non-empty options (at least one) and a
`correctAnswer` that is a subsequence of the options. -/
def QuestionPayloadOk (p : QuestionPayload) : Prop :=
  match p.type with
  | .boolean => p.options = some ["True", "False"] ∧ ∃ b, p.correctAnswer = .ofBool b
  | .input => ∃ s, p.correctAnswer = .ofString s ∧ IsTrimmed s
  | .checkbox =>
    ∃ os, p.options = some os ∧ os ≠ [] ∧
      (∀ o ∈ os, IsTrimmed o ∧ o ≠ "") ∧
      ∃ cs, p.correctAnswer = .ofStrings cs ∧ cs.Sublist os

/-- The §3 shape invariants of a whole submission. -/
def SubmissionOk (p : CreateQuizPayload) : Prop :=
  ∀ q ∈ p.questions, QuestionPayloadOk q

/-- The input-answer violation: `correctInput` missing or blank after
trimming. -/
def inputBlank (q : QuestionDraft) : Prop :=
  match q.correctInput with
  | none => True
  | some s => (trim s).length = 0

/-- The checkbox zero-options violation: no options array, or an empty one. -/
def noOptions (q : QuestionDraft) : Prop :=
  q.options = none ∨ q.options = some []

/-- The checkbox flags violation: flags missing, index-misaligned with the
options, or holding no `true`. -/
def flagsBad (q : QuestionDraft) : Prop :=
  match q.correctCheckbox with
  | none => True
  | some fs => fs.length ≠ (q.options.getD []).length ∨ fs.any id = false

/-- The violations C2 enumerates for question `i` at path `p`: the
type-specific rules plus the empty-text rule. -/
def ClaimedQuestionViolation (i : Nat) (q : QuestionDraft) (p : FieldPath) : Prop :=
  (p = .qText i ∧ q.text.length = 0)
  ∨ (q.type = .boolean ∧ q.correctBoolean = none ∧ p = .qCorrectBoolean i)
  ∨ (q.type = .input ∧ inputBlank q ∧ p = .qCorrectInput i)
  ∨ (q.type = .checkbox ∧ noOptions q ∧ p = .qOptions i)
  ∨ (q.type = .checkbox ∧ flagsBad q ∧ p = .qCorrectCheckbox i)

/-- The violation set exactly as C2 enumerates it, keyed by field path. -/
def ClaimedViolation (d : QuizDraft) (p : FieldPath) : Prop :=
  (p = .title ∧ d.title.length = 0)
  ∨ (p = .questions ∧ d.questions.length = 0)
  ∨ ∃ i q, d.questions[i]? = some q ∧ ClaimedQuestionViolation i q p

/-- The violations the schema actually reports for question `i` at path
`p`: C2's list plus, for any question with an options array, one
violation per option that is blank after trimming. -/
def QuestionViolation (i : Nat) (q : QuestionDraft) (p : FieldPath) : Prop :=
  ClaimedQuestionViolation i q p
  ∨ (∃ os j o, q.options = some os ∧ os[j]? = some o ∧ (trim o).length = 0
       ∧ p = .qOption i j)

/-- The violation set the schema actually reports, keyed by field path. -/
def AmendedViolation (d : QuizDraft) (p : FieldPath) : Prop :=
  (p = .title ∧ d.title.length = 0)
  ∨ (p = .questions ∧ d.questions.length = 0)
  ∨ ∃ i q, d.questions[i]? = some q ∧ QuestionViolation i q p

/-! ### Concrete inputs used by witnesses and counterexamples -/

/-- A checkbox question matching the Red/Green/Blue example. -/
def colorsQuestion : QuestionDraft :=
  { text := "Colors", type := .checkbox, options := some ["Red", "Green", "Blue"],
    correctCheckbox := some [true, false, true] }

/-- The boolean question of the Geo example. -/
def geoQuestion : QuestionDraft :=
  { text := "", type := .boolean, correctBoolean := some true }

/-- The Geo example draft. -/
def geoDraft : QuizDraft :=
  { title := "Geo", questions := [geoQuestion] }

/-- An input question with padded text and answer. -/
def paddedQuestion : QuestionDraft :=
  { text := " Hi ", type := .input, correctInput := some " A " }

/-- An aligned checkbox question. -/
def alignedQuestion : QuestionDraft :=
  { text := "Q", type := .checkbox, options := some ["A"],
    correctCheckbox := some [true] }

/-- A checkbox question holding two filled options. -/
def abQuestion : QuestionDraft :=
  { text := "Q", type := .checkbox, options := some ["A", "B"],
    correctCheckbox := some [true, false] }

/-- A draft holding a single question. -/
def oneQuestionDraft : QuizDraft :=
  { title := "T", questions := [{ text := "A", type := .input, correctInput := some "x" }] }

/-- A draft holding two questions. -/
def twoQuestionDraft : QuizDraft :=
  { title := "T",
    questions := [{ text := "A", type := .input, correctInput := some "x" },
                  { text := "B", type := .input, correctInput := some "y" }] }

/-- A stored quiz. -/
def sampleQuiz : Quiz :=
  { id := 1, title := "Sample", questions := [] }

/-- A draft whose boolean question has no selected answer. -/
def boolMissingDraft : QuizDraft :=
  { title := "T", questions := [{ text := "Q", type := .boolean }] }

/-- A draft that validates. -/
def validDraft : QuizDraft :=
  { title := "T", questions := [{ text := "Q", type := .input, correctInput := some "A" }] }

/-- A draft whose checkbox question has one blank option with its flag set. -/
def blankOptionDraft : QuizDraft :=
  { title := "T",
    questions := [{ text := "Q", type := .checkbox, options := some [" "],
                    correctCheckbox := some [true] }] }

/-- A draft whose title and question text are a single space. -/
def whitespaceTitleDraft : QuizDraft :=
  { title := " ",
    questions := [{ text := " ", type := .input, correctInput := some "A" }] }

/-! ### Helper lemmas -/

lemma filterAligned_eq_zip_filterMap (os : List String) (fs : List Bool) :
    filterAligned os fs
      = (os.zip fs).filterMap fun p => if p.2 then some p.1 else none := by
  induction os generalizing fs with
  | nil => simp [filterAligned]
  | cons o os ih =>
    cases fs with
    | nil => simp [filterAligned]
    | cons f fs => cases f <;> simp [filterAligned, ih]

lemma filterAligned_sublist (os : List String) (fs : List Bool) :
    (filterAligned os fs).Sublist os := by
  induction os generalizing fs with
  | nil => simp [filterAligned]
  | cons o os ih =>
    cases fs with
    | nil => simp [filterAligned]
    | cons f fs =>
      cases f with
      | false => simpa [filterAligned] using (ih fs).cons o
      | true => simpa [filterAligned] using (ih fs).cons₂ o

lemma length_eraseIdx_eq {α β : Type} (l₁ : List α) (l₂ : List β)
    (h : l₁.length = l₂.length) (i : Nat) :
    (l₁.eraseIdx i).length = (l₂.eraseIdx i).length := by
  rw [List.length_eraseIdx, List.length_eraseIdx, h]

lemma getD_emptyGuard {α : Type} (l : List α) :
    ((if l.isEmpty then (none : Option (List α)) else some l).getD []).length
      = l.length := by
  cases l <;> simp

lemma mem_map_ite_singleton {α β : Type} {c : Prop} [Decidable c] {x : α}
    {f : α → β} {p : β} :
    p ∈ (if c then [x] else []).map f ↔ c ∧ p = f x := by
  split <;> simp_all

lemma path_optionIssues (i : Nat) (os : List String) (n : Nat) (p : FieldPath) :
    p ∈ (optionIssues i n os).map Issue.path ↔
      ∃ j o, os[j]? = some o ∧ (trim o).length = 0 ∧ p = .qOption i (n + j) := by
  induction os generalizing n with
  | nil => simp [optionIssues]
  | cons o os ih =>
    rw [optionIssues, List.map_append, List.mem_append, mem_map_ite_singleton, ih]
    constructor
    · rintro (⟨hlen, rfl⟩ | ⟨j, o', ho, hl, rfl⟩)
      · exact ⟨0, o, by simp, Nat.lt_one_iff.mp hlen, rfl⟩
      · exact ⟨j + 1, o', by simpa using ho, hl,
          by rw [show n + (j + 1) = n + 1 + j from by omega]⟩
    · rintro ⟨j, o', ho, hl, rfl⟩
      cases j with
      | zero =>
        left
        simp only [List.getElem?_cons_zero, Option.some.injEq] at ho
        subst ho
        exact ⟨Nat.lt_one_iff.mpr hl, rfl⟩
      | succ j =>
        right
        exact ⟨j, o', by simpa using ho, hl,
          by rw [show n + 1 + j = n + (j + 1) from by omega]⟩

lemma path_baseIssues (i : Nat) (q : QuestionDraft) (p : FieldPath) :
    p ∈ (baseIssues i q).map Issue.path ↔
      ((p = .qText i ∧ q.text.length = 0)
        ∨ ∃ os j o, q.options = some os ∧ os[j]? = some o ∧ (trim o).length = 0
            ∧ p = .qOption i j) := by
  unfold baseIssues
  rw [List.map_append, List.mem_append, mem_map_ite_singleton]
  cases hop : q.options with
  | none =>
    constructor
    · rintro (⟨hlen, rfl⟩ | h)
      · exact Or.inl ⟨rfl, Nat.lt_one_iff.mp hlen⟩
      · simp at h
    · rintro (⟨rfl, hlen⟩ | ⟨os', j, o, hos, -⟩)
      · exact Or.inl ⟨Nat.lt_one_iff.mpr hlen, rfl⟩
      · simp at hos
  | some os =>
    rw [path_optionIssues]
    constructor
    · rintro (⟨hlen, rfl⟩ | ⟨j, o, ho, hl, rfl⟩)
      · exact Or.inl ⟨rfl, Nat.lt_one_iff.mp hlen⟩
      · exact Or.inr ⟨os, j, o, rfl, ho, hl, by rw [Nat.zero_add]⟩
    · rintro (⟨rfl, hlen⟩ | ⟨os', j, o, hos, ho, hl, rfl⟩)
      · exact Or.inl ⟨Nat.lt_one_iff.mpr hlen, rfl⟩
      · rcases Option.some.inj hos with rfl
        exact Or.inr ⟨j, o, ho, hl, by rw [Nat.zero_add]⟩

lemma path_booleanRefineIssues (i : Nat) (q : QuestionDraft) (p : FieldPath) :
    p ∈ (booleanRefineIssues i q).map Issue.path ↔
      q.correctBoolean = none ∧ p = .qCorrectBoolean i := by
  unfold booleanRefineIssues
  cases hcb : q.correctBoolean <;> simp [and_comm]

lemma path_inputRefineIssues (i : Nat) (q : QuestionDraft) (p : FieldPath) :
    p ∈ (inputRefineIssues i q).map Issue.path ↔
      inputBlank q ∧ p = .qCorrectInput i := by
  unfold inputRefineIssues inputBlank
  cases hci : q.correctInput with
  | none => simp [and_comm]
  | some s => by_cases h : (trim s).length = 0 <;> simp [h, and_comm]

lemma path_checkboxOptionsIssues (i : Nat) (q : QuestionDraft) (p : FieldPath) :
    p ∈ (checkboxOptionsIssues i q).map Issue.path ↔
      noOptions q ∧ p = .qOptions i := by
  unfold checkboxOptionsIssues noOptions
  cases hop : q.options with
  | none => simp [and_comm]
  | some os => cases os <;> simp [and_comm]

lemma path_checkboxFlagsIssues (i : Nat) (q : QuestionDraft) (p : FieldPath) :
    p ∈ (checkboxFlagsIssues i q).map Issue.path ↔
      flagsBad q ∧ p = .qCorrectCheckbox i := by
  unfold checkboxFlagsIssues flagsBad
  cases hcc : q.correctCheckbox with
  | none => simp [and_comm]
  | some fs =>
    by_cases h1 : fs.length = (q.options.getD []).length
    · by_cases h2 : fs.any id = false <;> simp [h1, h2, and_comm]
    · simp [h1, and_comm]

lemma path_superRefineIssues (i : Nat) (q : QuestionDraft) (p : FieldPath) :
    p ∈ (superRefineIssues i q).map Issue.path ↔
      ((q.type = .boolean ∧ q.correctBoolean = none ∧ p = .qCorrectBoolean i)
        ∨ (q.type = .input ∧ inputBlank q ∧ p = .qCorrectInput i)
        ∨ (q.type = .checkbox ∧ noOptions q ∧ p = .qOptions i)
        ∨ (q.type = .checkbox ∧ flagsBad q ∧ p = .qCorrectCheckbox i)) := by
  unfold superRefineIssues
  rw [List.map_append, List.map_append, List.mem_append, List.mem_append]
  cases hty : q.type with
  | boolean =>
    rw [if_pos rfl, if_neg (by decide), if_neg (by decide),
      path_booleanRefineIssues]
    simp
  | input =>
    rw [if_neg (by decide), if_pos rfl, if_neg (by decide),
      path_inputRefineIssues]
    simp
  | checkbox =>
    rw [if_neg (by decide), if_neg (by decide), if_pos rfl,
      List.map_append, List.mem_append, path_checkboxOptionsIssues,
      path_checkboxFlagsIssues]
    simp

lemma path_questionSchemaIssues (i : Nat) (q : QuestionDraft) (p : FieldPath) :
    p ∈ (questionSchemaIssues i q).map Issue.path ↔ QuestionViolation i q p := by
  unfold questionSchemaIssues
  rw [List.map_append, List.mem_append, path_baseIssues, path_superRefineIssues]
  unfold QuestionViolation ClaimedQuestionViolation
  constructor
  · rintro ((h | h) | (h | h | h | h))
    · exact Or.inl (Or.inl h)
    · exact Or.inr h
    · exact Or.inl (Or.inr (Or.inl h))
    · exact Or.inl (Or.inr (Or.inr (Or.inl h)))
    · exact Or.inl (Or.inr (Or.inr (Or.inr (Or.inl h))))
    · exact Or.inl (Or.inr (Or.inr (Or.inr (Or.inr h))))
  · rintro ((h | h | h | h | h) | h)
    · exact Or.inl (Or.inl h)
    · exact Or.inr (Or.inl h)
    · exact Or.inr (Or.inr (Or.inl h))
    · exact Or.inr (Or.inr (Or.inr (Or.inl h)))
    · exact Or.inr (Or.inr (Or.inr (Or.inr h)))
    · exact Or.inl (Or.inr h)

lemma path_questionsIssues (qs : List QuestionDraft) (n : Nat) (p : FieldPath) :
    p ∈ (questionsIssues n qs).map Issue.path ↔
      ∃ i q, qs[i]? = some q ∧ p ∈ (questionSchemaIssues (n + i) q).map Issue.path := by
  induction qs generalizing n with
  | nil => simp [questionsIssues]
  | cons q qs ih =>
    rw [questionsIssues, List.map_append, List.mem_append, ih]
    constructor
    · rintro (h | ⟨i, q', hq, hp⟩)
      · exact ⟨0, q, by simp, h⟩
      · exact ⟨i + 1, q', by simpa using hq,
          by rw [show n + (i + 1) = n + 1 + i from by omega]; exact hp⟩
    · rintro ⟨i, q', hq, hp⟩
      cases i with
      | zero =>
        left
        simp only [List.getElem?_cons_zero, Option.some.injEq] at hq
        subst hq
        exact hp
      | succ i =>
        right
        exact ⟨i, q', by simpa using hq,
          by rw [show n + 1 + i = n + (i + 1) from by omega]; exact hp⟩

lemma vpaths_spec (d : QuizDraft) (p : FieldPath) :
    p ∈ vpaths d ↔ AmendedViolation d p := by
  unfold vpaths createQuizSchemaIssues AmendedViolation
  rw [List.map_append, List.map_append, List.mem_append, List.mem_append,
    mem_map_ite_singleton, mem_map_ite_singleton, path_questionsIssues]
  simp only [path_questionSchemaIssues, Nat.zero_add, Nat.lt_one_iff]
  constructor
  · rintro ((⟨hl, rfl⟩ | ⟨hl, rfl⟩) | h)
    · exact Or.inl ⟨rfl, hl⟩
    · exact Or.inr (Or.inl ⟨rfl, hl⟩)
    · exact Or.inr (Or.inr h)
  · rintro (⟨rfl, hl⟩ | ⟨rfl, hl⟩ | h)
    · exact Or.inl (Or.inl ⟨hl, rfl⟩)
    · exact Or.inl (Or.inr ⟨hl, rfl⟩)
    · exact Or.inr h

lemma trim_ne_empty_of_optionIssues_nil {i n : Nat} {os : List String}
    (h : optionIssues i n os = []) : ∀ o ∈ os, trim o ≠ "" := by
  induction os generalizing n with
  | nil => simp
  | cons o os ih =>
    rw [optionIssues] at h
    rcases List.append_eq_nil.mp h with ⟨h1, h2⟩
    intro o' ho'
    rcases List.mem_cons.mp ho' with rfl | ho'
    · intro htr
      rw [htr] at h1
      simp at h1
    · exact ih h2 o' ho'

lemma checkbox_opts_of_superRefine_nil {i : Nat} {q : QuestionDraft}
    (hty : q.type = .checkbox) (h : superRefineIssues i q = []) :
    ∃ os, q.options = some os ∧ os ≠ [] := by
  unfold superRefineIssues at h
  rw [hty] at h
  simp at h
  have hopt : checkboxOptionsIssues i q = [] := h.1
  unfold checkboxOptionsIssues at hopt
  cases hop : q.options with
  | none => rw [hop] at hopt; simp at hopt
  | some os =>
    cases os with
    | nil => rw [hop] at hopt; simp at hopt
    | cons o os => exact ⟨o :: os, rfl, by simp⟩

lemma questionPayloadOk_of_issues_nil {i : Nat} {q : QuestionDraft}
    (h : questionSchemaIssues i q = []) : QuestionPayloadOk (questionPayload q) := by
  rcases List.append_eq_nil.mp h with ⟨hbase, href⟩
  cases hty : q.type with
  | boolean => simp [QuestionPayloadOk, questionPayload, hty]
  | input =>
    simp only [QuestionPayloadOk, questionPayload, hty]
    refine ⟨(q.correctInput.map trim).getD "", rfl, ?_⟩
    cases q.correctInput with
    | none => exact ⟨"", by decide⟩
    | some s => exact ⟨s, rfl⟩
  | checkbox =>
    obtain ⟨os, hop, hne⟩ := checkbox_opts_of_superRefine_nil hty href
    unfold baseIssues at hbase
    rw [hop] at hbase
    rcases List.append_eq_nil.mp hbase with ⟨-, hoi⟩
    have hoi : optionIssues i 0 os = [] := hoi
    simp only [QuestionPayloadOk, questionPayload, hty, hop]
    refine ⟨os.map trim, rfl, by simpa using hne, ?_,
      filterAligned (os.map trim) (q.correctCheckbox.getD []), rfl,
      filterAligned_sublist _ _⟩
    intro o ho
    rcases List.mem_map.mp ho with ⟨o', ho', rfl⟩
    exact ⟨⟨o', rfl⟩, trim_ne_empty_of_optionIssues_nil hoi o' ho'⟩

lemma questionsIssues_nil {n : Nat} {qs : List QuestionDraft}
    (h : questionsIssues n qs = []) : ∀ q ∈ qs, ∃ i, questionSchemaIssues i q = [] := by
  induction qs generalizing n with
  | nil => simp
  | cons q qs ih =>
    rw [questionsIssues] at h
    rcases List.append_eq_nil.mp h with ⟨h1, h2⟩
    intro q' hq'
    rcases List.mem_cons.mp hq' with rfl | hq'
    · exact ⟨n, h1⟩
    · exact ih h2 q' hq'

lemma aligned_applyOptionOp (q : QuestionDraft) (h : aligned q) (op : OptionOp) :
    aligned (applyOptionOp q op) := by
  cases op with
  | add =>
    simp only [applyOptionOp, addOption, aligned, Option.getD_some,
      List.length_append, List.length_cons, List.length_nil] at h ⊢
    omega
  | remove j =>
    have hlen := length_eraseIdx_eq _ _ h j
    simp only [applyOptionOp, removeOption, aligned]
    rw [getD_emptyGuard, getD_emptyGuard]
    exact hlen

/-! ### Claim theorems -/

/-- C3 (theorem): for every checkbox question the payload
mapping emits the question text, type checkbox, the trimmed options, and
as `correctAnswer` the options paired with their index-aligned flag and
kept exactly when the flag is true, in original order. -/
theorem checkbox_payload_mapping (q : QuestionDraft) (h : q.type = .checkbox) :
    (questionPayload q).text = q.text ∧
    (questionPayload q).type = .checkbox ∧
    (questionPayload q).options = some ((q.options.getD []).map trim) ∧
    (questionPayload q).correctAnswer =
      .ofStrings ((((q.options.getD []).map trim).zip (q.correctCheckbox.getD [])).filterMap
        fun p => if p.2 then some p.1 else none) := by
  rcases q with ⟨t, ty, o, cb, ci, cc⟩
  cases h
  exact ⟨rfl, rfl, rfl, by simp [questionPayload, filterAligned_eq_zip_filterMap]⟩

/-- Witness for C3 at the Red/Green/Blue example. -/
theorem checkbox_payload_mapping_witness :
    colorsQuestion.type = .checkbox ∧
    (questionPayload colorsQuestion).options = some ["Red", "Green", "Blue"] ∧
    (questionPayload colorsQuestion).correctAnswer = .ofStrings ["Red", "Blue"] := by
  have h := checkbox_payload_mapping colorsQuestion rfl
  refine ⟨rfl, ?_, ?_⟩
  · rw [h.2.2.1]; decide
  · rw [h.2.2.2]; decide

/-- C4 (theorem): for every boolean question the payload mapping emits
the question text, type boolean, the fixed options `["True", "False"]`,
and a boolean `correctAnswer` that is `true` exactly when the draft has
the True radio selected. -/
theorem boolean_payload_mapping (q : QuestionDraft) (h : q.type = .boolean) :
    (questionPayload q).text = q.text ∧
    (questionPayload q).type = .boolean ∧
    (questionPayload q).options = some ["True", "False"] ∧
    ∃ b, (questionPayload q).correctAnswer = .ofBool b ∧
      (b = true ↔ q.correctBoolean = some true) := by
  rcases q with ⟨t, ty, o, cb, ci, cc⟩
  cases h
  refine ⟨rfl, rfl, rfl, cb == some true, rfl, ?_⟩
  cases cb with
  | none => simp
  | some b => cases b <;> simp

/-- Witness for C4 at the Geo example draft. -/
theorem boolean_payload_mapping_witness :
    geoQuestion.type = .boolean ∧
    (questionPayload geoQuestion).options = some ["True", "False"] ∧
    onSubmitPayload geoDraft =
      { title := "Geo",
        questions := [{ text := "", type := .boolean, options := some ["True", "False"],
                        correctAnswer := .ofBool true }] } := by
  have h := boolean_payload_mapping geoQuestion rfl
  exact ⟨rfl, h.2.2.1, by decide⟩

/-- C5 (counterexample): the payload keeps the question text of
`paddedQuestion` as `" Hi "`, not its trimmed form. -/
theorem payload_text_trimmed_false :
    (questionPayload paddedQuestion).text ≠ trim paddedQuestion.text := by
  decide

/-- C5 (theorem, corrected): the payload mapping passes question text
through unchanged; the trimming applies to the input answer, whose
payload `correctAnswer` is the trimmed `correctInput` (empty when the
field is absent). -/
theorem payload_text_unchanged (q : QuestionDraft) :
    (questionPayload q).text = q.text ∧
    (q.type = .input → ∀ s, q.correctInput = some s →
      (questionPayload q).correctAnswer = .ofString (trim s)) ∧
    (q.type = .input → q.correctInput = none →
      (questionPayload q).correctAnswer = .ofString "") := by
  rcases q with ⟨t, ty, o, cb, ci, cc⟩
  refine ⟨by cases ty <;> rfl, ?_, ?_⟩
  · intro h s hs
    cases h
    cases hs
    rfl
  · intro h hn
    cases h
    cases hn
    rfl

/-- Witness for C5 at the padded input question. -/
theorem payload_text_unchanged_witness :
    (questionPayload paddedQuestion).text = " Hi " ∧
    (questionPayload paddedQuestion).correctAnswer = .ofString "A" := by
  have h := payload_text_unchanged paddedQuestion
  refine ⟨h.1, ?_⟩
  have h2 := h.2.1 rfl " A " rfl
  rw [h2]
  decide

/-- C6 (theorem): from an aligned state, every sequence of `addOption`
and `removeOption` calls keeps the options and flags arrays equally long
after every call. -/
theorem options_flags_alignment_preserved (q : QuestionDraft) (h : aligned q)
    (ops : List OptionOp) : aligned (ops.foldl applyOptionOp q) := by
  induction ops generalizing q with
  | nil => exact h
  | cons op ops ih => exact ih _ (aligned_applyOptionOp q h op)

/-- Witness for C6: an add then a remove starting from an aligned
checkbox question. -/
theorem options_flags_alignment_preserved_witness :
    aligned ([OptionOp.add, OptionOp.remove 0].foldl applyOptionOp alignedQuestion) :=
  options_flags_alignment_preserved alignedQuestion (by decide) _

/-- C7 (counterexample): switching `abQuestion` to checkbox, input, then
checkbox does not restore its original options `["A", "B"]`. -/
theorem type_switch_restores_options_false :
    (handleTypeChange (handleTypeChange (handleTypeChange abQuestion .checkbox)
      .input) .checkbox).options ≠ abQuestion.options := by
  decide

/-- C7 (theorem, corrected): a type switch preserves the question text,
but the switch to input clears the cached options, so the final switch
back to checkbox seeds a single empty option with flag `false`. -/
theorem type_switch_roundtrip (q : QuestionDraft) (t : QType) :
    (handleTypeChange q t).text = q.text ∧
    (handleTypeChange (handleTypeChange (handleTypeChange q .checkbox)
      .input) .checkbox).options = some [""] ∧
    (handleTypeChange (handleTypeChange (handleTypeChange q .checkbox)
      .input) .checkbox).correctCheckbox = some [false] := by
  refine ⟨by cases t <;> rfl, rfl, rfl⟩

/-- C8 (theorem): removing a question is a no-op when a single question
remains; with more than one question it removes exactly the question at
the index; a draft with at least one question keeps at least one. -/
theorem remove_question_guarded (d : QuizDraft) (i : Nat) :
    (d.questions.length = 1 → removeQuestion d i = d) ∧
    (1 < d.questions.length →
      (removeQuestion d i).questions = d.questions.take i ++ d.questions.drop (i + 1)) ∧
    (1 ≤ d.questions.length → 1 ≤ (removeQuestion d i).questions.length) := by
  refine ⟨fun h => by simp [removeQuestion, h], fun h => ?_, fun h => ?_⟩
  · have hne : d.questions.length ≠ 1 := by omega
    simp [removeQuestion, hne, List.eraseIdx_eq_take_drop_succ]
  · by_cases h1 : d.questions.length = 1
    · simp [removeQuestion, h1]
    · simp only [removeQuestion, h1, if_false]
      rw [List.length_eraseIdx]
      split <;> omega

/-- Witness for C8 at one-question and two-question drafts. -/
theorem remove_question_guarded_witness :
    removeQuestion oneQuestionDraft 0 = oneQuestionDraft ∧
    (removeQuestion twoQuestionDraft 0).questions
      = twoQuestionDraft.questions.take 0 ++ twoQuestionDraft.questions.drop 1 ∧
    1 ≤ (removeQuestion twoQuestionDraft 0).questions.length :=
  ⟨(remove_question_guarded oneQuestionDraft 0).1 (by decide),
   (remove_question_guarded twoQuestionDraft 0).2.1 (by decide),
   (remove_question_guarded twoQuestionDraft 0).2.2 (by decide)⟩

/-- C9 (theorem): each of the four service helpers fails exactly when
the response is non-ok and returns the parsed body (or nothing, for
delete) on success. -/
theorem service_transport_errors (r₁ : HttpResponse (List Quiz)) (id₁ : Nat)
    (r₂ : HttpResponse Quiz) (data : CreateQuizPayload) (r₃ : HttpResponse Quiz)
    (id₂ : Nat) (r₄ : HttpResponse Unit) :
    ((∃ e, getQuizzes r₁ = .error e) ↔ r₁.ok = false) ∧
    (r₁.ok = true → getQuizzes r₁ = .ok r₁.body) ∧
    ((∃ e, getQuiz id₁ r₂ = .error e) ↔ r₂.ok = false) ∧
    (r₂.ok = true → getQuiz id₁ r₂ = .ok r₂.body) ∧
    ((∃ e, createQuiz data r₃ = .error e) ↔ r₃.ok = false) ∧
    (r₃.ok = true → createQuiz data r₃ = .ok r₃.body) ∧
    ((∃ e, deleteQuiz id₂ r₄ = .error e) ↔ r₄.ok = false) ∧
    (r₄.ok = true → deleteQuiz id₂ r₄ = .ok ()) := by
  obtain ⟨ok₁, body₁⟩ := r₁
  obtain ⟨ok₂, body₂⟩ := r₂
  obtain ⟨ok₃, body₃⟩ := r₃
  obtain ⟨ok₄, body₄⟩ := r₄
  cases ok₁ <;> cases ok₂ <;> cases ok₃ <;> cases ok₄ <;>
    simp [getQuizzes, getQuiz, createQuiz, deleteQuiz]

/-- C1 (counterexample): on `boolMissingDraft` validation reports an
error, yet the total payload mapping still yields a submission satisfying
the §3 shape invariants, so the biconditional fails. -/
theorem validate_iff_submission_ok_false :
    ¬ (createQuizSchemaIssues boolMissingDraft = [] ↔
        SubmissionOk (onSubmitPayload boolMissingDraft)) := by
  intro h
  have hok : SubmissionOk (onSubmitPayload boolMissingDraft) := by
    intro p hp
    have hp' : p = questionPayload { text := "Q", type := .boolean } := by
      simpa [onSubmitPayload, boolMissingDraft] using hp
    subst hp'
    exact ⟨rfl, false, rfl⟩
  exact absurd (h.mpr hok) (by decide)

/-- C1 (theorem, corrected): when validation reports no errors, the
payload mapping yields a submission satisfying the §3 shape invariants;
the converse direction of the claim fails because the mapping is total. -/
theorem validate_ok_implies_submission_ok (d : QuizDraft)
    (h : createQuizSchemaIssues d = []) : SubmissionOk (onSubmitPayload d) := by
  unfold createQuizSchemaIssues at h
  rcases List.append_eq_nil.mp h with ⟨h12, h3⟩
  intro p hp
  have hp' : p ∈ d.questions.map questionPayload := hp
  rcases List.mem_map.mp hp' with ⟨q, hq, rfl⟩
  obtain ⟨i, hqi⟩ := questionsIssues_nil h3 q hq
  exact questionPayloadOk_of_issues_nil hqi

/-- Witness for C1 at a draft that validates. -/
theorem validate_ok_implies_submission_ok_witness :
    createQuizSchemaIssues validDraft = [] ∧
    SubmissionOk (onSubmitPayload validDraft) :=
  ⟨by decide, validate_ok_implies_submission_ok validDraft (by decide)⟩

/-- C2 (counterexample): on `blankOptionDraft` the error set is not the
set C2 enumerates — the schema reports the blank option at
`questions[0].options[0]`, a violation outside the enumerated list. -/
theorem errorSet_claimed_characterization_false :
    ¬ (∀ p, p ∈ vpaths blankOptionDraft ↔ ClaimedViolation blankOptionDraft p) := by
  intro h
  have h1 : FieldPath.qOption 0 0 ∈ vpaths blankOptionDraft := by decide
  have h2 := (h (FieldPath.qOption 0 0)).mp h1
  rcases h2 with ⟨hp, -⟩ | ⟨hp, -⟩ | ⟨i, q, hq, hv⟩
  · simp at hp
  · simp at hp
  · rcases hv with ⟨hp, -⟩ | ⟨-, -, hp⟩ | ⟨-, -, hp⟩ | ⟨-, -, hp⟩ | ⟨-, -, hp⟩ <;>
      simp at hp

/-- C2 (theorem, corrected): the validation error set, keyed by field
path, is exactly the enumerated type-specific and universal violations
plus one violation per blank-after-trim option; all violations are
collected, none short-circuits another. -/
theorem errorSet_characterization (d : QuizDraft) (p : FieldPath) :
    p ∈ vpaths d ↔ AmendedViolation d p :=
  vpaths_spec d p

/-- C10 (theorem): the title and question-text checks look only at the
raw length, so whitespace-only values pass, while a whitespace-only
checkbox option is rejected; the single-space title validates and is
submitted unchanged. -/
theorem whitespace_title_accepted (d : QuizDraft) (i : Nat) (q : QuestionDraft)
    (hq : d.questions[i]? = some q) :
    (FieldPath.title ∈ vpaths d ↔ d.title.length = 0) ∧
    (FieldPath.qText i ∈ vpaths d ↔ q.text.length = 0) ∧
    createQuizSchemaIssues blankOptionDraft ≠ [] ∧
    createQuizSchemaIssues whitespaceTitleDraft = [] ∧
    (onSubmitPayload whitespaceTitleDraft).title = " " := by
  refine ⟨?_, ?_, by decide, by decide, rfl⟩
  · rw [vpaths_spec]
    constructor
    · rintro (⟨-, h⟩ | ⟨hp, -⟩ | ⟨i', q', -, hv⟩)
      · exact h
      · simp at hp
      · rcases hv with (⟨hp, -⟩ | ⟨-, -, hp⟩ | ⟨-, -, hp⟩ | ⟨-, -, hp⟩ | ⟨-, -, hp⟩)
          | ⟨os, j, o, -, -, -, hp⟩ <;> simp at hp
    · intro h
      exact Or.inl ⟨rfl, h⟩
  · rw [vpaths_spec]
    constructor
    · rintro (⟨hp, -⟩ | ⟨hp, -⟩ | ⟨i', q', hq', hv⟩)
      · simp at hp
      · simp at hp
      · rcases hv with (⟨hp, ht⟩ | ⟨-, -, hp⟩ | ⟨-, -, hp⟩ | ⟨-, -, hp⟩ | ⟨-, -, hp⟩)
          | ⟨os, j, o, -, -, -, hp⟩
        · simp only [FieldPath.qText.injEq] at hp
          subst hp
          rw [hq] at hq'
          rcases Option.some.inj hq' with rfl
          exact ht
        all_goals simp at hp
    · intro h
      exact Or.inr (Or.inr ⟨i, q, hq, Or.inl (Or.inl ⟨rfl, h⟩)⟩)

/-- Witness for C10 at the single-space-title draft. -/
theorem whitespace_title_accepted_witness :
    createQuizSchemaIssues whitespaceTitleDraft = [] ∧
    (onSubmitPayload whitespaceTitleDraft).title = " " ∧
    createQuizSchemaIssues blankOptionDraft ≠ [] := by
  have h := whitespace_title_accepted whitespaceTitleDraft 0
    { text := " ", type := .input, correctInput := some "A" } (by decide)
  exact ⟨h.2.2.2.1, h.2.2.2.2, h.2.2.1⟩

/-- Witness for C9 at concrete responses. -/
theorem service_transport_errors_witness :
    getQuizzes ⟨true, [sampleQuiz]⟩ = .ok [sampleQuiz] ∧
    getQuiz 1 ⟨true, sampleQuiz⟩ = .ok sampleQuiz ∧
    createQuiz ⟨"T", []⟩ ⟨false, sampleQuiz⟩ = .error "Failed to create quiz" ∧
    deleteQuiz 2 ⟨true, ()⟩ = .ok () := by
  have h := service_transport_errors ⟨true, [sampleQuiz]⟩ 1 ⟨true, sampleQuiz⟩
    ⟨"T", []⟩ ⟨false, sampleQuiz⟩ 2 ⟨true, ()⟩
  exact ⟨h.2.1 rfl, h.2.2.2.1 rfl, rfl, h.2.2.2.2.2.2.2 rfl⟩

end QuizBuilder
